import Mathlib

/-!
Verification development for the YouTube-live → Discord notifier
(`main.py`): a shallow embedding of the state store, the live-status
checker, the notifier, the startup configuration check, and one
iteration of the polling loop, together with theorems about the
properties stated in the design document.

Modelling conventions:
* Python values produced by `json.load` / consumed by `json.dump` are
  modelled by the inductive type `Json` below.  `Json.beq` is structural
  equality; it agrees with Python `==` on `null`, booleans, numbers and
  strings (the only values the claims compare).
* The outcome of a single HTTP exchange performed by `requests.get` /
  `requests.post` is modelled by `HttpOutcome`: either a response
  (status code, the result of `resp.json()` as an `Option Json`, and
  `resp.text`) or a raised exception.
* A fallible Python function is embedded as a function into
  `Except String _`; `Except.error` is a raised exception.
* The state file on disk is modelled by `FileContent`: missing,
  existing-but-unreadable (`open`/read raises), or readable content
  abstracted by the outcome of `json.load` on it (`none` = parse
  error).  `json.dump` of a `Json` value writes text that `json.load`
  reads back as the same value, so a successful `save_state` puts
  `FileContent.raw (some state)` on disk.
-/

inductive Json where
  | null
  | bool (b : Bool)
  | num (n : Int)
  | str (s : String)
  | arr (xs : List Json)
  | obj (kvs : List (String × Json))

mutual

def Json.beq : Json → Json → Bool
  | .null, .null => true
  | .bool a, .bool c => a == c
  | .num a, .num c => a == c
  | .str a, .str c => a == c
  | .arr xs, .arr ys => Json.beqList xs ys
  | .obj xs, .obj ys => Json.beqKvs xs ys
  | _, _ => false

def Json.beqList : List Json → List Json → Bool
  | [], [] => true
  | x :: xs, y :: ys => Json.beq x y && Json.beqList xs ys
  | _, _ => false

def Json.beqKvs : List (String × Json) → List (String × Json) → Bool
  | [], [] => true
  | (k1, v1) :: xs, (k2, v2) :: ys => k1 == k2 && Json.beq v1 v2 && Json.beqKvs xs ys
  | _, _ => false

end

/-- Python truthiness of a JSON value (`if not items: ...`). -/
def Json.truthy : Json → Bool
  | .null => false
  | .bool b => b
  | .num n => n != 0
  | .str s => s != ""
  | .arr xs => !xs.isEmpty
  | .obj kvs => !kvs.isEmpty

/-- Python subscripting `value[key]` on a parsed JSON value: a `KeyError`
if the dict lacks the key, a `TypeError` when the value is not a dict
(indexing a list or a scalar with a string key raises in Python). -/
def pyIndex (j : Json) (k : String) : Except String Json :=
  match j with
  | .obj kvs =>
    match List.lookup k kvs with
    | some v => .ok v
    | none => .error "KeyError"
  | _ => .error "TypeError"

/-- Python dict assignment `d[k] = v`: replaces the value at the first
occurrence of `k`, keeping its position, or appends a new binding. -/
def setPairs (kvs : List (String × Json)) (k : String) (v : Json) :
    List (String × Json) :=
  match kvs with
  | [] => [(k, v)]
  | (k1, v1) :: rest =>
    if k1 = k then (k, v) :: rest else (k1, v1) :: setPairs rest k v

/-- Outcome of one HTTP exchange: a response with status code, parsed
body (`resp.json()` outcome; `none` = body is not valid JSON) and raw
text, or an exception raised by the `requests` call itself. -/
inductive HttpOutcome where
  | resp (status : Nat) (body : Option Json) (text : String)
  | exn (msg : String)

/-- Contents of the state file `last_notified.json` on disk, abstracted
through the `json` module: `raw p` is an existing readable file whose
`json.load` outcome is `p`. -/
inductive FileContent where
  | missing
  | unreadable
  | raw (parsed : Option Json)

/-- Embedding of `load_state` (main.py lines 28-35): if the file exists,
try to read and parse it, catching every exception (unreadable file or
invalid JSON) with a logged warning; in all those cases fall through to
`return \x7b\x7d`.  A successfully parsed value is returned as-is, with
no shape check.  The function is total: no exception escapes. -/
def load_state : FileContent → Json
  | .missing => Json.obj []
  | .unreadable => Json.obj []
  | .raw none => Json.obj []
  | .raw (some j) => j

/-- Embedding of `save_state` (main.py lines 37-45): overwrite the file
with `json.dump state`; an I/O error (`ioOk = false`) is caught and
logged, leaving the file as it was. -/
def save_state (state : Json) (f : FileContent) (ioOk : Bool) : FileContent :=
  if ioOk then .raw (some state) else f

/-- Embedding of `get_current_live_stream` (main.py lines 50-76), as a
function of the HTTP exchange outcome.  A raised `requests` exception
propagates.  A non-200 status is logged and yields `none` (treated as
not live).  On a 200 response: `resp.json()` raises if the body is not
valid JSON; `data.get` raises `AttributeError` if the document is not a
dict; an empty/falsy `items` yields `none`; otherwise `items[0]` is
indexed for `id.videoId` and `snippet.title`, and any missing key or
non-dict value raises.  (Indexing a truthy non-list `items` also raises
a `TypeError` in Python — for a string, one subscript later — which the
model collapses to the same propagated error.)  Note the extracted id
and title are whatever JSON values sit at those keys; Python performs
no type check on them. -/
def get_current_live_stream (o : HttpOutcome) : Except String (Option (Json × Json)) :=
  match o with
  | .exn m => .error m
  | .resp status body _ =>
    if status ≠ 200 then .ok none
    else
      match body with
      | none => .error "JSONDecodeError"
      | some data =>
        match data with
        | .obj kvs =>
          let items := (List.lookup "items" kvs).getD (Json.arr [])
          if items.truthy = false then .ok none
          else
            match items with
            | .arr (video :: _) => do
              let idObj ← pyIndex video "id"
              let video_id ← pyIndex idObj "videoId"
              let snippet ← pyIndex video "snippet"
              let title ← pyIndex snippet "title"
              return some (video_id, title)
            | _ => .error "TypeError"
        | _ => .error "AttributeError"

/-- Embedding of `send_discord_notification` (main.py lines 81-98), as a
function of the webhook POST outcome.  An exception raised by
`requests.post` propagates to the caller.  A response with status other
than 200 or 204 is logged as a warning; the function then returns
normally.  The returned list is the warnings logged.  (The message
payload built from `video_id` and `title` is consumed only by the
webhook; no claim inspects it.) -/
def send_discord_notification (video_id title : Json) (post : HttpOutcome) :
    Except String (List String) :=
  match post with
  | .exn m => .error m
  | .resp status _ text =>
    if status = 200 ∨ status = 204 then .ok []
    else .ok ["Discord webhook failed: " ++ toString status ++ " " ++ text]

def POLL_INTERVAL : Nat := 900

def MAX_BACKOFF : Nat := 3600

/-- External world of one poll cycle: the outcome of the YouTube search
request, the outcome of the webhook POST (used only if the notifier is
called), and whether writing the state file succeeds. -/
structure CycleEnv where
  checkHttp : HttpOutcome
  notifyHttp : HttpOutcome
  saveOk : Bool

/-- Variables of `run_poll_loop` carried across iterations: the loaded
state dict (`state` — always a dict once the loop body runs, since
`state.get` on line 105 would already have raised otherwise), the
`last_notified_video` variable (`Json.null` models Python `None`, which
`state.get` returns both for an absent key and for a stored JSON null),
the current backoff in seconds, and the state file on disk. -/
structure LoopState where
  state : List (String × Json)
  lastNotified : Json
  backoff : Nat
  file : FileContent

/-- Result of one loop iteration: the updated loop state, the arguments
of every `send_discord_notification` call made, and the state value of
every `save_state` call made. -/
structure CycleResult where
  final : LoopState
  notifyCalls : List (Json × Json)
  saveCalls : List Json

/-- Embedding of one iteration of the `while True` body of
`run_poll_loop` (main.py lines 112-138).  Any exception from the checker
or the notifier is caught by the `except` clause, which doubles the
backoff up to `MAX_BACKOFF`; a broadcast equal to `last_notified_video`
or no broadcast is a successful no-op cycle; a new broadcast is
notified, then `last_notified_video` and `state` are updated and the
state is saved; every non-raising path resets the backoff. -/
def pollIteration (env : CycleEnv) (s : LoopState) : CycleResult :=
  match get_current_live_stream env.checkHttp with
  | .error _ =>
    { final := { s with backoff := min (s.backoff * 2) MAX_BACKOFF },
      notifyCalls := [], saveCalls := [] }
  | .ok none =>
    { final := { s with backoff := POLL_INTERVAL },
      notifyCalls := [], saveCalls := [] }
  | .ok (some (vid, title)) =>
    if Json.beq vid s.lastNotified then
      { final := { s with backoff := POLL_INTERVAL },
        notifyCalls := [], saveCalls := [] }
    else
      match send_discord_notification vid title env.notifyHttp with
      | .error _ =>
        { final := { s with backoff := min (s.backoff * 2) MAX_BACKOFF },
          notifyCalls := [(vid, title)], saveCalls := [] }
      | .ok _ =>
        let st2 := setPairs s.state "last_notified_video_id" vid
        { final := { state := st2, lastNotified := vid,
                     backoff := POLL_INTERVAL,
                     file := save_state (Json.obj st2) s.file env.saveOk },
          notifyCalls := [(vid, title)], saveCalls := [Json.obj st2] }

/-- Run a sequence of poll cycles, one environment per cycle. -/
def runCycles : List CycleEnv → LoopState → LoopState
  | [], s => s
  | env :: rest, s => runCycles rest (pollIteration env s).final

/-- A cycle faults (its iteration ends in the `except` clause) exactly
when the checker raises, or a new broadcast is found and the webhook
POST raises. -/
def cycleFaults (env : CycleEnv) (s : LoopState) : Bool :=
  match get_current_live_stream env.checkHttp with
  | .error _ => true
  | .ok none => false
  | .ok (some (vid, _)) =>
    if Json.beq vid s.lastNotified then false
    else
      match env.notifyHttp with
      | .exn _ => true
      | .resp _ _ _ => false

/-- The checker outcome of this cycle, if it is a broadcast, carries a
string id (the shape the platform API documents for `id.videoId`). -/
def checkerIdIsStr (env : CycleEnv) : Prop :=
  ∀ vid title, get_current_live_stream env.checkHttp = .ok (some (vid, title)) →
    ∃ y, vid = Json.str y

/-- The recognized key of the loaded state document, read with
`state.get "last_notified_video_id"` semantics on a dict. -/
def stateLastNotifiedId (j : Json) : Option Json :=
  match j with
  | .obj kvs => List.lookup "last_notified_video_id" kvs
  | _ => none

/-- Embedding of `os.getenv key default` over an environment modelled as
an association list. -/
def os_getenv (environ : List (String × String)) (k d : String) : String :=
  (List.lookup k environ).getD d

/-- Module-level configuration values (main.py lines 11-13): each falls
back to a non-empty placeholder string when the variable is unset. -/
def YOUTUBE_API_KEY (environ : List (String × String)) : String :=
  os_getenv environ "YOUTUBE_API_KEY" "YOUR_YOUTUBE_API_KEY"

def CHANNEL_ID (environ : List (String × String)) : String :=
  os_getenv environ "CHANNEL_ID" "YOUR_CHANNEL_ID"

def DISCORD_WEBHOOK_URL (environ : List (String × String)) : String :=
  os_getenv environ "DISCORD_WEBHOOK_URL" "YOUR_DISCORD_WEBHOOK_URL"

/-- Embedding of the startup check (main.py lines 152-156):
`if not (YOUTUBE_API_KEY and CHANNEL_ID and DISCORD_WEBHOOK_URL)` then
log an error and `exit 1`.  Under Python string truthiness this fires
exactly when one of the three values is the empty string.  Returns
`true` iff the process exits before starting the loop and the server. -/
def startupConfigExit (environ : List (String × String)) : Bool :=
  YOUTUBE_API_KEY environ == "" || CHANNEL_ID environ == "" ||
    DISCORD_WEBHOOK_URL environ == ""

/-- Search response body for a channel that is live with video id `vid`
and title `title`, in the shape the YouTube search endpoint returns. -/
def sampleLiveBody (vid title : String) : Option Json :=
  some (Json.obj [("items", Json.arr [Json.obj
    [("id", Json.obj [("videoId", Json.str vid)]),
     ("snippet", Json.obj [("title", Json.str title)])]])])

/-- Cycle environment for a healthy cycle that finds a live broadcast
and whose webhook answers 204 and whose state write succeeds. -/
def sampleLiveEnv (vid title : String) : CycleEnv :=
  { checkHttp := .resp 200 (sampleLiveBody vid title) "",
    notifyHttp := .resp 204 none "", saveOk := true }

/-- Cycle environment whose search request raises. -/
def sampleFaultEnv : CycleEnv :=
  { checkHttp := .exn "requests.exceptions.Timeout",
    notifyHttp := .exn "unused", saveOk := true }

/-- Cycle environment whose search request gets a non-200 answer, so the
cycle succeeds with no broadcast found. -/
def sampleIdleEnv : CycleEnv :=
  { checkHttp := .resp 403 none "quotaExceeded",
    notifyHttp := .exn "unused", saveOk := true }

/-- Loop state right after a first start with no state file. -/
def emptyLoopState : LoopState :=
  { state := [], lastNotified := Json.null, backoff := POLL_INTERVAL,
    file := .missing }

/-- Cycle environment whose search request is answered 200 with a body
that is not valid JSON. -/
def sampleBadBodyEnv : CycleEnv :=
  { checkHttp := .resp 200 none "<html>error</html>",
    notifyHttp := .resp 204 none "", saveOk := true }

/-- Loop state whose document `kvs` is on disk and whose
`last_notified_video` variable holds `last`. -/
def loopStateAt (kvs : List (String × Json)) (last : Json) (backoff : Nat) :
    LoopState :=
  { state := kvs, lastNotified := last, backoff := backoff,
    file := FileContent.raw (some (Json.obj kvs)) }

/-- Iterated `backoff = min (backoff * 2) MAX_BACKOFF` update. -/
def doubleCapIter : Nat → Nat → Nat
  | 0, b => b
  | n + 1, b => doubleCapIter n (min (b * 2) MAX_BACKOFF)

theorem Json.beq_str_iff (y : String) (b : Json) :
    Json.beq (Json.str y) b = true ↔ Json.str y = b := by
  cases b <;> simp [Json.beq]

theorem Json.beq_str_false_iff (y : String) (b : Json) :
    Json.beq (Json.str y) b = false ↔ Json.str y ≠ b := by
  rw [ne_eq, ← Json.beq_str_iff]
  cases Json.beq (Json.str y) b <;> simp

theorem notify_resp_ok (video_id title : Json) (status : Nat)
    (body : Option Json) (text : String) :
    ∃ w, send_discord_notification video_id title
      (HttpOutcome.resp status body text) = Except.ok w := by
  by_cases h : status = 200 ∨ status = 204
  · exact ⟨[], by simp [send_discord_notification, h]⟩
  · exact ⟨["Discord webhook failed: " ++ toString status ++ " " ++ text],
      by simp [send_discord_notification, h]⟩

theorem pollIteration_checkFault (env : CycleEnv) (s : LoopState) (e : String)
    (hc : get_current_live_stream env.checkHttp = Except.error e) :
    pollIteration env s =
      { final := { s with backoff := min (s.backoff * 2) MAX_BACKOFF },
        notifyCalls := [], saveCalls := [] } := by
  unfold pollIteration
  rw [hc]

theorem pollIteration_none (env : CycleEnv) (s : LoopState)
    (hc : get_current_live_stream env.checkHttp = Except.ok none) :
    pollIteration env s =
      { final := { s with backoff := POLL_INTERVAL },
        notifyCalls := [], saveCalls := [] } := by
  unfold pollIteration
  rw [hc]

theorem pollIteration_skip (env : CycleEnv) (s : LoopState) (vid title : Json)
    (hc : get_current_live_stream env.checkHttp = Except.ok (some (vid, title)))
    (hb : Json.beq vid s.lastNotified = true) :
    pollIteration env s =
      { final := { s with backoff := POLL_INTERVAL },
        notifyCalls := [], saveCalls := [] } := by
  unfold pollIteration
  rw [hc]
  simp [hb]

theorem pollIteration_notifies (env : CycleEnv) (s : LoopState)
    (vid title : Json) (w : List String)
    (hc : get_current_live_stream env.checkHttp = Except.ok (some (vid, title)))
    (hb : Json.beq vid s.lastNotified = false)
    (hs : send_discord_notification vid title env.notifyHttp = Except.ok w) :
    pollIteration env s =
      { final := { state := setPairs s.state "last_notified_video_id" vid,
                   lastNotified := vid, backoff := POLL_INTERVAL,
                   file := save_state
                     (Json.obj (setPairs s.state "last_notified_video_id" vid))
                     s.file env.saveOk },
        notifyCalls := [(vid, title)],
        saveCalls := [Json.obj (setPairs s.state "last_notified_video_id" vid)] } := by
  unfold pollIteration
  rw [hc]
  simp [hb, hs]

theorem pollIteration_notifyFault (env : CycleEnv) (s : LoopState)
    (vid title : Json) (e : String)
    (hc : get_current_live_stream env.checkHttp = Except.ok (some (vid, title)))
    (hb : Json.beq vid s.lastNotified = false)
    (hs : send_discord_notification vid title env.notifyHttp = Except.error e) :
    pollIteration env s =
      { final := { s with backoff := min (s.backoff * 2) MAX_BACKOFF },
        notifyCalls := [(vid, title)], saveCalls := [] } := by
  unfold pollIteration
  rw [hc]
  simp [hb, hs]

/-- C5 counterexample: the file content `42` is valid JSON that does not
match the expected state shape, yet `load_state` returns it verbatim
instead of an empty state. -/
theorem C5_counterexample :
    load_state (FileContent.raw (some (Json.num 42))) = Json.num 42 ∧
    Json.num 42 ≠ Json.obj [] :=
  ⟨rfl, fun h => Json.noConfusion h⟩

/-- C5 (amended): state load is total and never raises; a missing file,
an unreadable file, or content that fails JSON parsing yields the empty
object, while content that parses as valid JSON is returned as-is even
when it does not match the expected one-key-object shape. -/
theorem C5_load_total :
    (load_state FileContent.missing = Json.obj [] ∧
     load_state FileContent.unreadable = Json.obj [] ∧
     load_state (FileContent.raw none) = Json.obj []) ∧
    (∀ j : Json, load_state (FileContent.raw (some j)) = j) :=
  ⟨⟨rfl, rfl, rfl⟩, fun _ => rfl⟩

/-- C8: saving any state to the file and loading it back reproduces the
whole state, in particular the same `last_notified_video_id` value,
provided the write itself succeeds. -/
theorem C8_roundtrip (st : Json) (f : FileContent) (ioOk : Bool)
    (h : ioOk = true) :
    load_state (save_state st f ioOk) = st ∧
    stateLastNotifiedId (load_state (save_state st f ioOk)) =
      stateLastNotifiedId st := by
  subst h
  exact ⟨rfl, rfl⟩

/-- C8 witness: round trip at a concrete saved state. -/
theorem C8_witness :
    load_state (save_state (Json.obj [("last_notified_video_id",
        Json.str "abc123")]) FileContent.missing true) =
      Json.obj [("last_notified_video_id", Json.str "abc123")] ∧
    stateLastNotifiedId (load_state (save_state (Json.obj
        [("last_notified_video_id", Json.str "abc123")])
        FileContent.missing true)) =
      stateLastNotifiedId (Json.obj [("last_notified_video_id",
        Json.str "abc123")]) :=
  C8_roundtrip (Json.obj [("last_notified_video_id", Json.str "abc123")])
    FileContent.missing true rfl

/-- C7 counterexample: when the webhook HTTP exchange itself raises (for
example a connection error from `requests.post`), the notifier does not
swallow it: the exception propagates to the caller, refuting the claim
for that outcome of the exchange. -/
theorem C7_counterexample :
    send_discord_notification (Json.str "dQw4w9WgXcQ") (Json.str "Live now")
      (HttpOutcome.exn "requests.exceptions.ConnectionError") =
    Except.error "requests.exceptions.ConnectionError" := rfl

/-- C7 (amended): for every response received from the webhook the
notifier returns normally (never raises, never retries); a 200 or 204
response logs nothing and any other status logs exactly one warning.
Only when the HTTP call itself raises does the exception propagate. -/
theorem C7_notifier (video_id title : Json) (status : Nat)
    (body : Option Json) (text : String) :
    (∃ w, send_discord_notification video_id title
        (HttpOutcome.resp status body text) = Except.ok w) ∧
    (status = 200 ∨ status = 204 →
      send_discord_notification video_id title
        (HttpOutcome.resp status body text) = Except.ok []) ∧
    (¬(status = 200 ∨ status = 204) →
      send_discord_notification video_id title
        (HttpOutcome.resp status body text) =
        Except.ok ["Discord webhook failed: " ++ toString status ++ " " ++ text]) := by
  refine ⟨notify_resp_ok video_id title status body text, ?_, ?_⟩
  · intro h
    simp [send_discord_notification, h]
  · intro h
    simp [send_discord_notification, h]

/-- C7 witness: a 404 response is logged as a warning and returned
normally. -/
theorem C7_witness :
    ¬((404 : Nat) = 200 ∨ (404 : Nat) = 204) ∧
    send_discord_notification (Json.str "v") (Json.str "t")
      (HttpOutcome.resp 404 none "Not Found") =
      Except.ok ["Discord webhook failed: " ++ toString (404 : Nat) ++ " " ++ "Not Found"] :=
  ⟨by decide, (C7_notifier (Json.str "v") (Json.str "t") 404 none
    "Not Found").2.2 (by decide)⟩

/-- C6: with none of the three variables present in the environment,
each configuration value falls back to its non-empty placeholder
default, so the startup check `not (a and b and c)` does not fire and
the process starts the loop and the web server instead of exiting —
the code contradicts the claimed (and clearly intended) behaviour. -/
theorem C6_missing_config_not_fatal :
    startupConfigExit [] = false ∧
    YOUTUBE_API_KEY [] = "YOUR_YOUTUBE_API_KEY" ∧
    CHANNEL_ID [] = "YOUR_CHANNEL_ID" ∧
    DISCORD_WEBHOOK_URL [] = "YOUR_DISCORD_WEBHOOK_URL" ∧
    startupConfigExit [("YOUTUBE_API_KEY", "YOUR_YOUTUBE_API_KEY"),
      ("CHANNEL_ID", "mychannel"), ("DISCORD_WEBHOOK_URL", "https://x")] = false :=
  ⟨rfl, rfl, rfl, rfl, rfl⟩

/-- C10: some 200-status search responses make the checker raise rather
than return absent — a body that is not valid JSON, a first item with no
`id`, and a first item whose `snippet` lacks `title` — and a cycle with
such a response is a fault: its iteration doubles the backoff (900 to
1800), calls no notifier, and leaves the notification state alone. -/
theorem C10_malformed_200_faults :
    (∃ e, get_current_live_stream
        (HttpOutcome.resp 200 none "<html>error</html>") = Except.error e) ∧
    (∃ e, get_current_live_stream (HttpOutcome.resp 200
        (some (Json.obj [("items", Json.arr [Json.obj
          [("snippet", Json.obj [("title", Json.str "T")])]])])) "") =
        Except.error e) ∧
    (∃ e, get_current_live_stream (HttpOutcome.resp 200
        (some (Json.obj [("items", Json.arr [Json.obj
          [("id", Json.obj [("videoId", Json.str "v1")]),
           ("snippet", Json.obj [])]])])) "") = Except.error e) ∧
    (pollIteration sampleBadBodyEnv emptyLoopState).final.backoff = 1800 ∧
    (pollIteration sampleBadBodyEnv emptyLoopState).notifyCalls = [] ∧
    (pollIteration sampleBadBodyEnv emptyLoopState).final.lastNotified = Json.null ∧
    (pollIteration sampleBadBodyEnv emptyLoopState).final.file = FileContent.missing :=
  ⟨⟨_, rfl⟩, ⟨_, rfl⟩, ⟨_, rfl⟩, rfl, rfl, rfl, rfl⟩

theorem lookup_setPairs_self (kvs : List (String × Json)) (k : String) (v : Json) :
    List.lookup k (setPairs kvs k v) = some v := by
  induction kvs with
  | nil => simp [setPairs, List.lookup]
  | cons p rest ih =>
    obtain ⟨k1, v1⟩ := p
    by_cases h : k1 = k
    · simp [setPairs, h, List.lookup]
    · simp only [setPairs, if_neg h, List.lookup]
      have hne : (k == k1) = false := by
        simp [Ne.symm h]
      rw [hne]
      exact ih

theorem lookup_setPairs_ne (kvs : List (String × Json)) (k k2 : String)
    (v : Json) (h : k2 ≠ k) :
    List.lookup k2 (setPairs kvs k v) = List.lookup k2 kvs := by
  induction kvs with
  | nil =>
    simp only [setPairs, List.lookup]
    have hne : (k2 == k) = false := by simp [h]
    rw [hne]
  | cons p rest ih =>
    obtain ⟨k1, v1⟩ := p
    by_cases hk : k1 = k
    · subst hk
      simp only [setPairs, if_pos rfl, List.lookup]
      have hne : (k2 == k1) = false := by simp [h]
      rw [hne]
    · simp only [setPairs, if_neg hk, List.lookup]
      cases hbeq : (k2 == k1) with
      | true => rfl
      | false => exact ih

/-- C2: if the checker returns a broadcast whose id equals the current
`last_notified_video` value `X`, the iteration sends no notification,
performs no save, and leaves the in-memory id, the state dict and the
state file unchanged. -/
theorem C2_duplicate_suppressed (s : LoopState) (X : String) (title : Json)
    (env : CycleEnv)
    (hlast : s.lastNotified = Json.str X)
    (hc : get_current_live_stream env.checkHttp =
      Except.ok (some (Json.str X, title))) :
    (pollIteration env s).notifyCalls = [] ∧
    (pollIteration env s).saveCalls = [] ∧
    (pollIteration env s).final.lastNotified = s.lastNotified ∧
    (pollIteration env s).final.state = s.state ∧
    (pollIteration env s).final.file = s.file := by
  have hb : Json.beq (Json.str X) s.lastNotified = true := by
    rw [Json.beq_str_iff, hlast]
  rw [pollIteration_skip env s _ _ hc hb]
  exact ⟨rfl, rfl, rfl, rfl, rfl⟩

/-- C2 witness: a cycle that finds the already-notified broadcast
`abc123` again changes nothing and notifies nobody. -/
theorem C2_witness :
    (loopStateAt [("last_notified_video_id", Json.str "abc123")]
        (Json.str "abc123") 900).lastNotified = Json.str "abc123" ∧
    (pollIteration (sampleLiveEnv "abc123" "Rerun")
        (loopStateAt [("last_notified_video_id", Json.str "abc123")]
          (Json.str "abc123") 900)).notifyCalls = [] ∧
    (pollIteration (sampleLiveEnv "abc123" "Rerun")
        (loopStateAt [("last_notified_video_id", Json.str "abc123")]
          (Json.str "abc123") 900)).final.file =
      (loopStateAt [("last_notified_video_id", Json.str "abc123")]
        (Json.str "abc123") 900).file := by
  have h := C2_duplicate_suppressed
    (loopStateAt [("last_notified_video_id", Json.str "abc123")]
      (Json.str "abc123") 900) "abc123" (Json.str "Rerun")
    (sampleLiveEnv "abc123" "Rerun") rfl rfl
  exact ⟨rfl, h.1, h.2.2.2.2⟩

/-- C1: from any prior loop state, if the checker returns a broadcast
`(Y, title)` whose id differs from the current `last_notified_video`
value (absent included), and the webhook exchange yields a response and
the state write succeeds, then the iteration calls the notifier exactly
once with exactly `(Y, title)`, sets `last_notified_video` to `Y`, saves
the updated state exactly once, and the file afterwards holds a document
whose `last_notified_video_id` is `Y`. -/
theorem C1_new_broadcast_notifies (s : LoopState) (Y title : String)
    (env : CycleEnv)
    (hc : get_current_live_stream env.checkHttp =
      Except.ok (some (Json.str Y, Json.str title)))
    (hnew : Json.str Y ≠ s.lastNotified)
    (hresp : ∃ status body text, env.notifyHttp = HttpOutcome.resp status body text)
    (hsave : env.saveOk = true) :
    (pollIteration env s).notifyCalls = [(Json.str Y, Json.str title)] ∧
    (pollIteration env s).final.lastNotified = Json.str Y ∧
    (pollIteration env s).saveCalls = [Json.obj ((pollIteration env s).final.state)] ∧
    List.lookup "last_notified_video_id" ((pollIteration env s).final.state) =
      some (Json.str Y) ∧
    (pollIteration env s).final.file =
      FileContent.raw (some (Json.obj ((pollIteration env s).final.state))) := by
  obtain ⟨status, body, text, he⟩ := hresp
  obtain ⟨w, hw⟩ : ∃ w, send_discord_notification (Json.str Y) (Json.str title)
      env.notifyHttp = Except.ok w := by
    rw [he]
    exact notify_resp_ok _ _ _ _ _
  have hb : Json.beq (Json.str Y) s.lastNotified = false :=
    (Json.beq_str_false_iff _ _).mpr hnew
  rw [pollIteration_notifies env s _ _ w hc hb hw]
  refine ⟨rfl, rfl, rfl, lookup_setPairs_self _ _ _, ?_⟩
  show save_state _ s.file env.saveOk = _
  rw [hsave]
  rfl

/-- C1 witness: the spec scenario — checker returns
`("abc123", "Big Game")` over an empty prior state: the notifier is
called once with those exact values and the file afterwards holds
`last_notified_video_id = "abc123"`. -/
theorem C1_witness :
    Json.str "abc123" ≠ emptyLoopState.lastNotified ∧
    (pollIteration (sampleLiveEnv "abc123" "Big Game")
        emptyLoopState).notifyCalls =
      [(Json.str "abc123", Json.str "Big Game")] ∧
    (pollIteration (sampleLiveEnv "abc123" "Big Game")
        emptyLoopState).final.lastNotified = Json.str "abc123" ∧
    List.lookup "last_notified_video_id"
      ((pollIteration (sampleLiveEnv "abc123" "Big Game")
        emptyLoopState).final.state) = some (Json.str "abc123") ∧
    (pollIteration (sampleLiveEnv "abc123" "Big Game")
        emptyLoopState).final.file =
      FileContent.raw (some (Json.obj ((pollIteration
        (sampleLiveEnv "abc123" "Big Game") emptyLoopState).final.state))) := by
  have hne : Json.str "abc123" ≠ emptyLoopState.lastNotified :=
    fun h => Json.noConfusion h
  have h := C1_new_broadcast_notifies emptyLoopState "abc123" "Big Game"
    (sampleLiveEnv "abc123" "Big Game") rfl hne ⟨204, none, "", rfl⟩ rfl
  exact ⟨hne, h.1, h.2.1, h.2.2.2.1, h.2.2.2.2⟩

/-- C9: when a poll iteration notifies a new broadcast `Y`, the document
written back to the state file keeps every key other than
`last_notified_video_id` bound exactly as in the prior in-memory state
(which the loop loaded from the file), alongside the updated
`last_notified_video_id = Y`. -/
theorem C9_extra_keys_preserved (s : LoopState) (Y title : String)
    (env : CycleEnv) (k : String)
    (hc : get_current_live_stream env.checkHttp =
      Except.ok (some (Json.str Y, Json.str title)))
    (hnew : Json.str Y ≠ s.lastNotified)
    (hresp : ∃ status body text, env.notifyHttp = HttpOutcome.resp status body text)
    (hsave : env.saveOk = true)
    (hk : k ≠ "last_notified_video_id") :
    (pollIteration env s).final.file =
      FileContent.raw (some (Json.obj ((pollIteration env s).final.state))) ∧
    List.lookup k ((pollIteration env s).final.state) = List.lookup k s.state ∧
    List.lookup "last_notified_video_id" ((pollIteration env s).final.state) =
      some (Json.str Y) := by
  obtain ⟨status, body, text, he⟩ := hresp
  obtain ⟨w, hw⟩ : ∃ w, send_discord_notification (Json.str Y) (Json.str title)
      env.notifyHttp = Except.ok w := by
    rw [he]
    exact notify_resp_ok _ _ _ _ _
  have hb : Json.beq (Json.str Y) s.lastNotified = false :=
    (Json.beq_str_false_iff _ _).mpr hnew
  rw [pollIteration_notifies env s _ _ w hc hb hw]
  refine ⟨?_, lookup_setPairs_ne _ _ _ _ hk, lookup_setPairs_self _ _ _⟩
  show save_state _ s.file env.saveOk = _
  rw [hsave]
  rfl

/-- C9 witness: a state file carrying an unrelated key `theme` keeps it,
with its value, after a notifying iteration. -/
theorem C9_witness :
    "theme" ≠ "last_notified_video_id" ∧
    (pollIteration (sampleLiveEnv "abc123" "Big Game")
        (loopStateAt [("theme", Json.str "dark")] Json.null 900)).final.file =
      FileContent.raw (some (Json.obj ((pollIteration
        (sampleLiveEnv "abc123" "Big Game")
        (loopStateAt [("theme", Json.str "dark")] Json.null 900)).final.state))) ∧
    List.lookup "theme" ((pollIteration (sampleLiveEnv "abc123" "Big Game")
        (loopStateAt [("theme", Json.str "dark")] Json.null 900)).final.state) =
      List.lookup "theme"
        (loopStateAt [("theme", Json.str "dark")] Json.null 900).state ∧
    List.lookup "last_notified_video_id"
      ((pollIteration (sampleLiveEnv "abc123" "Big Game")
        (loopStateAt [("theme", Json.str "dark")] Json.null 900)).final.state) =
      some (Json.str "abc123") := by
  have h := C9_extra_keys_preserved
    (loopStateAt [("theme", Json.str "dark")] Json.null 900) "abc123"
    "Big Game" (sampleLiveEnv "abc123" "Big Game") "theme" rfl
    (fun h => Json.noConfusion h) ⟨204, none, "", rfl⟩ rfl (by decide)
  exact ⟨by decide, h.1, h.2.1, h.2.2⟩

/-- C4: over one arbitrary iteration, the `last_notified_video` variable
changes only when the notifier call for exactly the new id returned
without raising (delivery failures are logged-only and do not raise, so
a completed call is a dispatched notification), and every such mutation
is immediately persisted by a single `save_state` call whose document
carries the new id; moreover, when the checker delivers string ids, a
set value is never rolled back to the absent (`null`) value. -/
theorem C4_monotonic_lastNotified (env : CycleEnv) (s : LoopState) :
    ((pollIteration env s).final.lastNotified ≠ s.lastNotified →
      (∃ t w, (pollIteration env s).notifyCalls =
          [((pollIteration env s).final.lastNotified, t)] ∧
        send_discord_notification ((pollIteration env s).final.lastNotified) t
          env.notifyHttp = Except.ok w) ∧
      (pollIteration env s).saveCalls =
        [Json.obj ((pollIteration env s).final.state)] ∧
      List.lookup "last_notified_video_id" ((pollIteration env s).final.state) =
        some ((pollIteration env s).final.lastNotified)) ∧
    (checkerIdIsStr env → s.lastNotified ≠ Json.null →
      (pollIteration env s).final.lastNotified ≠ Json.null) := by
  cases hres : get_current_live_stream env.checkHttp with
  | error e =>
    rw [pollIteration_checkFault env s e hres]
    exact ⟨fun h => absurd rfl h, fun _ h => h⟩
  | ok live =>
    cases live with
    | none =>
      rw [pollIteration_none env s hres]
      exact ⟨fun h => absurd rfl h, fun _ h => h⟩
    | some p =>
      obtain ⟨vid, title⟩ := p
      cases hb : Json.beq vid s.lastNotified with
      | true =>
        rw [pollIteration_skip env s vid title hres hb]
        exact ⟨fun h => absurd rfl h, fun _ h => h⟩
      | false =>
        cases hsend : send_discord_notification vid title env.notifyHttp with
        | error e =>
          rw [pollIteration_notifyFault env s vid title e hres hb hsend]
          exact ⟨fun h => absurd rfl h, fun _ h => h⟩
        | ok w =>
          rw [pollIteration_notifies env s vid title w hres hb hsend]
          constructor
          · intro _
            exact ⟨⟨title, w, rfl, hsend⟩, rfl, lookup_setPairs_self _ _ _⟩
          · intro hstr _
            obtain ⟨y, hy⟩ := hstr vid title hres
            show vid ≠ Json.null
            rw [hy]
            exact fun h => Json.noConfusion h

/-- C4 witness: a cycle that replaces the notified id `old` by `abc123`
dispatches a notification for `abc123`, persists it in one save, and
the new value is not `null`. -/
theorem C4_witness :
    (pollIteration (sampleLiveEnv "abc123" "T")
        (loopStateAt [("last_notified_video_id", Json.str "old")]
          (Json.str "old") 900)).final.lastNotified ≠
      (loopStateAt [("last_notified_video_id", Json.str "old")]
        (Json.str "old") 900).lastNotified ∧
    (∃ t w, (pollIteration (sampleLiveEnv "abc123" "T")
        (loopStateAt [("last_notified_video_id", Json.str "old")]
          (Json.str "old") 900)).notifyCalls =
        [((pollIteration (sampleLiveEnv "abc123" "T")
          (loopStateAt [("last_notified_video_id", Json.str "old")]
            (Json.str "old") 900)).final.lastNotified, t)] ∧
      send_discord_notification ((pollIteration (sampleLiveEnv "abc123" "T")
          (loopStateAt [("last_notified_video_id", Json.str "old")]
            (Json.str "old") 900)).final.lastNotified) t
        (sampleLiveEnv "abc123" "T").notifyHttp = Except.ok w) ∧
    (pollIteration (sampleLiveEnv "abc123" "T")
        (loopStateAt [("last_notified_video_id", Json.str "old")]
          (Json.str "old") 900)).saveCalls =
      [Json.obj ((pollIteration (sampleLiveEnv "abc123" "T")
        (loopStateAt [("last_notified_video_id", Json.str "old")]
          (Json.str "old") 900)).final.state)] ∧
    (pollIteration (sampleLiveEnv "abc123" "T")
        (loopStateAt [("last_notified_video_id", Json.str "old")]
          (Json.str "old") 900)).final.lastNotified ≠ Json.null := by
  have hne : (pollIteration (sampleLiveEnv "abc123" "T")
      (loopStateAt [("last_notified_video_id", Json.str "old")]
        (Json.str "old") 900)).final.lastNotified ≠
      (loopStateAt [("last_notified_video_id", Json.str "old")]
        (Json.str "old") 900).lastNotified := by
    intro h
    have h2 : Json.str "abc123" = Json.str "old" := h
    injection h2 with h3
    exact absurd h3 (by decide)
  have hstr : checkerIdIsStr (sampleLiveEnv "abc123" "T") := by
    intro vid t h
    have h2 : (Except.ok (some (vid, t)) : Except String (Option (Json × Json))) =
        Except.ok (some (Json.str "abc123", Json.str "T")) := by
      rw [← h]
      rfl
    simp only [Except.ok.injEq, Option.some.injEq, Prod.mk.injEq] at h2
    exact ⟨"abc123", h2.1⟩
  have h := C4_monotonic_lastNotified (sampleLiveEnv "abc123" "T")
    (loopStateAt [("last_notified_video_id", Json.str "old")]
      (Json.str "old") 900)
  obtain ⟨h1, h2⟩ := h
  have h3 := h1 hne
  refine ⟨hne, h3.1, h3.2.1, h2 hstr (fun h4 => Json.noConfusion h4)⟩

theorem min_double_cap (a : Nat) :
    min (min a 3600 * 2) 3600 = min (a * 2) 3600 := by
  omega

theorem doubleCapIter_min (n k : Nat) :
    doubleCapIter n (min (900 * 2 ^ k) 3600) = min (900 * 2 ^ (n + k)) 3600 := by
  induction n generalizing k with
  | zero => simp [doubleCapIter]
  | succ m ih =>
    have h1 : doubleCapIter (m + 1) (min (900 * 2 ^ k) 3600) =
        doubleCapIter m (min (min (900 * 2 ^ k) 3600 * 2) MAX_BACKOFF) := rfl
    have h2 : min (min (900 * 2 ^ k) 3600 * 2) MAX_BACKOFF =
        min (900 * 2 ^ (k + 1)) 3600 := by
      show min (min (900 * 2 ^ k) 3600 * 2) 3600 = _
      rw [min_double_cap]
      congr 1
      rw [pow_succ]
      ring
    rw [h1, h2, ih (k + 1)]
    have he : m + (k + 1) = m + 1 + k := by omega
    rw [he]

theorem cycleFaults_only_lastNotified (env : CycleEnv) (s s2 : LoopState)
    (h : s.lastNotified = s2.lastNotified) :
    cycleFaults env s = cycleFaults env s2 := by
  unfold cycleFaults
  rw [h]

theorem fault_final (env : CycleEnv) (s : LoopState)
    (h : cycleFaults env s = true) :
    (pollIteration env s).final =
      { s with backoff := min (s.backoff * 2) MAX_BACKOFF } := by
  cases hres : get_current_live_stream env.checkHttp with
  | error e => rw [pollIteration_checkFault env s e hres]
  | ok live =>
    cases live with
    | none =>
      have hcf : cycleFaults env s = false := by
        unfold cycleFaults
        rw [hres]
      rw [hcf] at h
      exact absurd h (by simp)
    | some p =>
      obtain ⟨vid, title⟩ := p
      cases hb : Json.beq vid s.lastNotified with
      | true =>
        have hcf : cycleFaults env s = false := by
          unfold cycleFaults
          rw [hres]
          simp [hb]
        rw [hcf] at h
        exact absurd h (by simp)
      | false =>
        cases henv : env.notifyHttp with
        | resp st bd tx =>
          have hcf : cycleFaults env s = false := by
            unfold cycleFaults
            rw [hres]
            simp [hb, henv]
          rw [hcf] at h
          exact absurd h (by simp)
        | exn m =>
          have hsend : send_discord_notification vid title env.notifyHttp =
              Except.error m := by
            rw [henv]
            rfl
          rw [pollIteration_notifyFault env s vid title m hres hb hsend]

theorem success_backoff (env : CycleEnv) (s : LoopState)
    (h : cycleFaults env s = false) :
    (pollIteration env s).final.backoff = POLL_INTERVAL := by
  cases hres : get_current_live_stream env.checkHttp with
  | error e =>
    have hcf : cycleFaults env s = true := by
      unfold cycleFaults
      rw [hres]
    rw [hcf] at h
    exact absurd h (by simp)
  | ok live =>
    cases live with
    | none => rw [pollIteration_none env s hres]
    | some p =>
      obtain ⟨vid, title⟩ := p
      cases hb : Json.beq vid s.lastNotified with
      | true => rw [pollIteration_skip env s vid title hres hb]
      | false =>
        cases henv : env.notifyHttp with
        | exn m =>
          have hcf : cycleFaults env s = true := by
            unfold cycleFaults
            rw [hres]
            simp [hb, henv]
          rw [hcf] at h
          exact absurd h (by simp)
        | resp st bd tx =>
          obtain ⟨w, hw⟩ : ∃ w, send_discord_notification vid title
              env.notifyHttp = Except.ok w := by
            rw [henv]
            exact notify_resp_ok _ _ _ _ _
          rw [pollIteration_notifies env s vid title w hres hb hw]

theorem runCycles_faults (envs : List CycleEnv) :
    ∀ s : LoopState, (∀ e ∈ envs, cycleFaults e s = true) →
      runCycles envs s = { s with backoff := doubleCapIter envs.length s.backoff } := by
  induction envs with
  | nil =>
    intro s _
    rfl
  | cons e rest ih =>
    intro s h
    have h1 : cycleFaults e s = true := h e (List.mem_cons_self _ _)
    have hstep : (pollIteration e s).final =
        { s with backoff := min (s.backoff * 2) MAX_BACKOFF } :=
      fault_final e s h1
    show runCycles rest (pollIteration e s).final = _
    rw [hstep]
    have h2 : ∀ e2 ∈ rest,
        cycleFaults e2 { s with backoff := min (s.backoff * 2) MAX_BACKOFF } = true := by
      intro e2 he2
      exact (cycleFaults_only_lastNotified e2 _ s rfl).trans
        (h e2 (List.mem_cons_of_mem _ he2))
    rw [ih _ h2]
    rfl

/-- C3: starting from the base interval, after any run of N ≥ 1
consecutive faulted cycles the sleep interval is
`min (base * 2 ^ N) cap` with base 900 and cap 3600, and any single
non-faulting cycle resets the interval to the base, whatever it was. -/
theorem C3_backoff_doubles_and_resets :
    (∀ (N : Nat) (envs : List CycleEnv) (s : LoopState),
      1 ≤ N → envs.length = N → s.backoff = POLL_INTERVAL →
      (∀ e ∈ envs, cycleFaults e s = true) →
      (runCycles envs s).backoff = min (POLL_INTERVAL * 2 ^ N) MAX_BACKOFF) ∧
    (∀ (env : CycleEnv) (s : LoopState), cycleFaults env s = false →
      (pollIteration env s).final.backoff = POLL_INTERVAL) := by
  constructor
  · intro N envs s _ hlen hbase hf
    rw [runCycles_faults envs s hf]
    show doubleCapIter envs.length s.backoff = _
    rw [hlen, hbase]
    have h0 : (POLL_INTERVAL : Nat) = min (900 * 2 ^ 0) 3600 := by
      norm_num [POLL_INTERVAL]
    rw [h0, doubleCapIter_min N 0]
    show min (900 * 2 ^ (N + 0)) 3600 = min (min (900 * 2 ^ 0) 3600 * 2 ^ N) MAX_BACKOFF
    show min (900 * 2 ^ (N + 0)) 3600 = min (min (900 * 2 ^ 0) 3600 * 2 ^ N) 3600
    norm_num
  · exact fun env s h => success_backoff env s h

/-- C3 witness: three consecutive faulting cycles from the base interval
sleep 1800, 3600, 3600 seconds, and one successful cycle afterwards
resets the interval to 900. -/
theorem C3_witness :
    (runCycles [sampleFaultEnv] emptyLoopState).backoff = 1800 ∧
    (runCycles [sampleFaultEnv, sampleFaultEnv] emptyLoopState).backoff = 3600 ∧
    (runCycles [sampleFaultEnv, sampleFaultEnv, sampleFaultEnv]
      emptyLoopState).backoff = 3600 ∧
    (pollIteration sampleIdleEnv (loopStateAt [] Json.null 3600)).final.backoff = 900 := by
  have hm1 : ∀ e ∈ [sampleFaultEnv], cycleFaults e emptyLoopState = true := by
    intro e he
    simp only [List.mem_singleton] at he
    subst he
    rfl
  have hm2 : ∀ e ∈ [sampleFaultEnv, sampleFaultEnv],
      cycleFaults e emptyLoopState = true := by
    intro e he
    simp only [List.mem_cons, List.mem_singleton, List.not_mem_nil, or_false] at he
    rcases he with rfl | rfl <;> rfl
  have hm3 : ∀ e ∈ [sampleFaultEnv, sampleFaultEnv, sampleFaultEnv],
      cycleFaults e emptyLoopState = true := by
    intro e he
    simp only [List.mem_cons, List.mem_singleton, List.not_mem_nil, or_false] at he
    rcases he with rfl | rfl | rfl <;> rfl
  have h1 := C3_backoff_doubles_and_resets.1 1 [sampleFaultEnv] emptyLoopState
    (by norm_num) rfl rfl hm1
  have h2 := C3_backoff_doubles_and_resets.1 2 [sampleFaultEnv, sampleFaultEnv]
    emptyLoopState (by norm_num) rfl rfl hm2
  have h3 := C3_backoff_doubles_and_resets.1 3
    [sampleFaultEnv, sampleFaultEnv, sampleFaultEnv] emptyLoopState
    (by norm_num) rfl rfl hm3
  have h4 := C3_backoff_doubles_and_resets.2 sampleIdleEnv
    (loopStateAt [] Json.null 3600) rfl
  refine ⟨?_, ?_, ?_, h4⟩
  · rw [h1]
    norm_num [POLL_INTERVAL, MAX_BACKOFF]
  · rw [h2]
    norm_num [POLL_INTERVAL, MAX_BACKOFF]
  · rw [h3]
    norm_num [POLL_INTERVAL, MAX_BACKOFF]
